import Mathlib

/-!
A shallow embedding of the GalGame plugin (`src/main.py`) and proofs about
its session state machine, narrative-engine operations and input routing.

Modelling choices:
* A provider call (`text_chat`) either raises an exception (carrying a
  message) or returns a response object that may or may not carry a
  `completion_text` attribute; this is `ProviderResult`.
* The provider is a function from the call index (a running counter) to a
  `ProviderResult`, so a whole run with several calls is deterministic once
  the provider behaviour is fixed.
* Python dicts (`last_options`, `game_sessions`) become association lists
  with dict-style get/set; `yield event.plain_result(t)` becomes appending
  `t` to an outbound list, in emission order.
* Each generator returns the updated session, the outbound texts, the list
  of provider calls it made (prompt, system prompt, contexts snapshot) and
  the next call index.
-/

namespace GalGame

/-- One role-tagged history entry, as stored in `llm_context`. -/
structure Msg where
  role : String
  content : String
deriving Repr, DecidableEq

/-- Per-session game state: the value stored in `self.game_sessions`. -/
structure Session where
  game_active : Bool
  llm_context : List Msg
  last_options : List (String × String)
deriving Repr, DecidableEq

/-- Outcome of one `text_chat` call: an exception with a message, or a
response whose `completion_text` attribute may be missing (`none`). -/
inductive ProviderResult where
  | exc (err : String)
  | ok (completion_text : Option String)
deriving Repr, DecidableEq

/-- A persona record (`{"id": ..., "prompt": ...}`); `prompt = none` models a
missing `prompt` key. -/
structure Persona where
  id : String
  prompt : Option String
deriving Repr, DecidableEq

/-- The provider manager's persona data used by `_get_system_prompt`;
`lookupRaises` models an exception while reading it (caught and logged). -/
structure PersonaEnv where
  lookupRaises : Bool
  selected_default_persona : Option Persona
  personas : List Persona

/-- The conversation object; `persona_id = none` models a missing
`persona_id` attribute or a `None` value. -/
structure Conversation where
  persona_id : Option String
deriving Repr, DecidableEq

/-- The five prompt templates of `self.prompt_templates` (configured
override or built-in default; the engine treats the text opaquely). -/
structure Templates where
  scene_prompt : String
  option_a_prompt : String
  option_b_prompt : String
  option_c_prompt : String
  response_prompt : String

/-- Everything external the engine consults: templates, persona data, the
conversation-manager result and the provider behaviour. -/
structure Env where
  tmpl : Templates
  persona : PersonaEnv
  conv : Option Conversation
  provider : Nat → ProviderResult

/-- Record of one provider call: the arguments `text_chat` was given. -/
structure CallRec where
  prompt : String
  system_prompt : String
  contexts : List Msg
deriving Repr, DecidableEq

/-- Result of running one generator: final session, outbound texts in
emission order, provider calls made, and the next provider call index. -/
structure GenOut where
  session : Session
  outbound : List String
  calls : List CallRec
  nextCall : Nat
deriving Repr

/-- Python dict read `d.get(k)`: value of the first matching key, if any. -/
def dictGet (d : List (String × String)) (k : String) : Option String :=
  (d.find? (fun p => p.1 = k)).map (fun p => p.2)

/-- Python dict write `d[k] = v`: update in place if present, else append. -/
def dictSet (d : List (String × String)) (k v : String) : List (String × String) :=
  if d.any (fun p => p.1 = k) then d.map (fun p => if p.1 = k then (k, v) else p)
  else d ++ [(k, v)]

/-- Fixed system prompt used for all three option calls (persona-free). -/
def FIXED_OPTION_SYSTEM : String := "你是一个视觉小说游戏引擎，负责生成玩家可以选择的选项"

/-- Notice emitted when the conversation object cannot be obtained. -/
def CONV_FAIL_MSG : String := "无法获取对话，请重新开始游戏"

/-- Built-in fallback option texts used when a response lacks
`completion_text`. -/
def FALLBACK_A : String := "A - 温柔微笑"

/-- Fallback option text for label B. -/
def FALLBACK_B : String := "B - 挑逗一笑"

/-- Fallback option text for label C. -/
def FALLBACK_C : String := "C - 保持距离"

/-- `_get_system_prompt`: persona-aware system instruction with a
caller-supplied default. -/
def get_system_prompt (env : PersonaEnv) (persona_id : Option String)
    (default_prompt : String) : String :=
  if env.lookupRaises then default_prompt
  else
    match persona_id with
    | none =>
      match env.selected_default_persona with
      | some p => p.prompt.getD default_prompt
      | none => default_prompt
    | some pid =>
      if pid = "[%None]" then default_prompt
      else
        match env.personas.find? (fun p => p.id = pid) with
        | some p => p.prompt.getD default_prompt
        | none => default_prompt

/-- `_generate_options`: reset `last_options`, make three option calls in
order (A, B, C) on the unchanged history, store/emit each text (falling
back per label when `completion_text` is missing), then append one
assistant summary entry.  An exception from a call is caught by the single
surrounding handler, which emits one error notice and stops. -/
def generate_options (env : Env) (n : Nat) (s : Session) : GenOut :=
  match env.conv with
  | none => { session := s, outbound := [CONV_FAIL_MSG], calls := [], nextCall := n }
  | some _ =>
    let s0 : Session := { s with last_options := [] }
    let callA : CallRec :=
      { prompt := env.tmpl.option_a_prompt, system_prompt := FIXED_OPTION_SYSTEM,
        contexts := s0.llm_context }
    match env.provider n with
    | .exc e =>
      { session := s0, outbound := ["生成选项时出错: " ++ e], calls := [callA],
        nextCall := n + 1 }
    | .ok ca =>
      let ta := ca.getD FALLBACK_A
      let s1 : Session := { s0 with last_options := dictSet s0.last_options "A" ta }
      let callB : CallRec :=
        { prompt := env.tmpl.option_b_prompt, system_prompt := FIXED_OPTION_SYSTEM,
          contexts := s1.llm_context }
      match env.provider (n + 1) with
      | .exc e =>
        { session := s1, outbound := [ta, "生成选项时出错: " ++ e],
          calls := [callA, callB], nextCall := n + 2 }
      | .ok cb =>
        let tb := cb.getD FALLBACK_B
        let s2 : Session := { s1 with last_options := dictSet s1.last_options "B" tb }
        let callC : CallRec :=
          { prompt := env.tmpl.option_c_prompt, system_prompt := FIXED_OPTION_SYSTEM,
            contexts := s2.llm_context }
        match env.provider (n + 2) with
        | .exc e =>
          { session := s2, outbound := [ta, tb, "生成选项时出错: " ++ e],
            calls := [callA, callB, callC], nextCall := n + 3 }
        | .ok cc =>
          let tc := cc.getD FALLBACK_C
          let s3 : Session := { s2 with last_options := dictSet s2.last_options "C" tc }
          let s4 : Session :=
            { s3 with llm_context := s3.llm_context ++
                [⟨"assistant", "提供的选项：\n" ++ ta ++ "\n" ++ tb ++ "\n" ++ tc⟩] }
          { session := s4, outbound := [ta, tb, tc],
            calls := [callA, callB, callC], nextCall := n + 3 }

/-- `_generate_initial_scene`: one scene call (persona-aware system
prompt); on success emit the scene, append `{system, scene template}` then
`{assistant, scene text}` to history and continue into option generation;
an exception yields one error notice and stops. -/
def generate_initial_scene (env : Env) (n : Nat) (s : Session) : GenOut :=
  match env.conv with
  | none => { session := s, outbound := [CONV_FAIL_MSG], calls := [], nextCall := n }
  | some conv =>
    let sys := get_system_prompt env.persona conv.persona_id
      "你是一个视觉小说游戏引擎，能生成优质的Galgame剧情和选项"
    let call0 : CallRec :=
      { prompt := env.tmpl.scene_prompt, system_prompt := sys, contexts := s.llm_context }
    match env.provider n with
    | .exc e =>
      { session := s, outbound := ["生成场景时出错: " ++ e], calls := [call0],
        nextCall := n + 1 }
    | .ok c =>
      let scene_text := c.getD "欢迎来到游戏世界"
      let s1 : Session :=
        { s with llm_context := s.llm_context ++
            [⟨"system", env.tmpl.scene_prompt⟩, ⟨"assistant", scene_text⟩] }
      let rest := generate_options env (n + 1) s1
      { session := rest.session, outbound := scene_text :: rest.outbound,
        calls := call0 :: rest.calls, nextCall := rest.nextCall }

/-- `_generate_story_progression`: one continuation call whose prompt is the
response template plus the chosen option text; on success emit the story,
append `{assistant, story text}` and regenerate options; an exception
yields one error notice and stops. -/
def generate_story_progression (env : Env) (n : Nat) (s : Session)
    (chosen_option_full_text : String) : GenOut :=
  match env.conv with
  | none => { session := s, outbound := [CONV_FAIL_MSG], calls := [], nextCall := n }
  | some conv =>
    let sys := get_system_prompt env.persona conv.persona_id
      "你是一个视觉小说游戏引擎，能根据用户选择生成优质的Galgame剧情"
    let call0 : CallRec :=
      { prompt := env.tmpl.response_prompt ++ "\n玩家选择: " ++ chosen_option_full_text,
        system_prompt := sys, contexts := s.llm_context }
    match env.provider n with
    | .exc e =>
      { session := s, outbound := ["生成故事进展时出错: " ++ e], calls := [call0],
        nextCall := n + 1 }
    | .ok c =>
      let story_text := c.getD "故事继续..."
      let s1 : Session :=
        { s with llm_context := s.llm_context ++ [⟨"assistant", story_text⟩] }
      let rest := generate_options env (n + 1) s1
      { session := rest.session, outbound := story_text :: rest.outbound,
        calls := call0 :: rest.calls, nextCall := rest.nextCall }

/-- `_process_user_choice`: look the label up in `last_options` (a missing
key or a falsy — empty — text is rejected with one notice and no
mutation); otherwise append the `{user, 用户选择了：...}` entry and run the
story progression. -/
def process_user_choice (env : Env) (n : Nat) (s : Session) (choice : String) : GenOut :=
  match dictGet s.last_options choice with
  | none =>
    { session := s, outbound := ["无法识别您的选择，请重新选择A、B或C"], calls := [],
      nextCall := n }
  | some chosen_option_full_text =>
    if chosen_option_full_text = "" then
      { session := s, outbound := ["无法识别您的选择，请重新选择A、B或C"], calls := [],
        nextCall := n }
    else
      let s1 : Session :=
        { s with llm_context := s.llm_context ++
            [⟨"user", "用户选择了：" ++ chosen_option_full_text⟩] }
      generate_story_progression env n s1 chosen_option_full_text

/-- The session store `self.game_sessions`. -/
def Store := List (String × Session)

/-- Dict read on the session store. -/
def storeGet (st : List (String × Session)) (id : String) : Option Session :=
  (st.find? (fun p => p.1 = id)).map (fun p => p.2)

/-- Dict write on the session store. -/
def storeSet (st : List (String × Session)) (id : String) (s : Session) :
    List (String × Session) :=
  if st.any (fun p => p.1 = id) then st.map (fun p => if p.1 = id then (id, s) else p)
  else st ++ [(id, s)]

/-- The "already running" rejection notice of `handle_start_galgame`. -/
def START_REJECT_MSG : String :=
  "已经有一个进行中的 gal 游戏，请先使用 \x27gal关闭\x27 结束当前游戏"

/-- The "nothing running" notice of `handle_stop_galgame`. -/
def STOP_REJECT_MSG : String := "当前没有进行中的 gal 游戏"

/-- Result of a router handler: new store, outbound texts, provider calls,
next call index, plus the two event flags (`should_call_llm(False)` issued,
`stop_event()` issued). -/
structure RouterOut where
  sessions : List (String × Session)
  outbound : List String
  calls : List CallRec
  nextCall : Nat
  llm_disabled : Bool
  event_stopped : Bool

/-- `handle_start_galgame`: reject when an active session exists, otherwise
overwrite with a fresh session, confirm, and generate the opening scene. -/
def handle_start_galgame (env : Env) (n : Nat) (sessions : List (String × Session))
    (id : String) : RouterOut :=
  let runFresh : RouterOut :=
    let fresh : Session := { game_active := true, llm_context := [], last_options := [] }
    let g := generate_initial_scene env n fresh
    { sessions := storeSet sessions id g.session,
      outbound := "gal已启动" :: g.outbound, calls := g.calls, nextCall := g.nextCall,
      llm_disabled := false, event_stopped := false }
  match storeGet sessions id with
  | some s =>
    if s.game_active then
      { sessions := sessions, outbound := [START_REJECT_MSG], calls := [], nextCall := n,
        llm_disabled := false, event_stopped := false }
    else runFresh
  | none => runFresh

/-- `handle_stop_galgame`: reject when no active session exists, otherwise
set `game_active := false`, clear the history and confirm
(`last_options` is left as is). -/
def handle_stop_galgame (n : Nat) (sessions : List (String × Session)) (id : String) :
    RouterOut :=
  match storeGet sessions id with
  | some s =>
    if s.game_active then
      { sessions := storeSet sessions id
          { s with game_active := false, llm_context := [] },
        outbound := ["gal已关闭"], calls := [], nextCall := n,
        llm_disabled := false, event_stopped := false }
    else
      { sessions := sessions, outbound := [STOP_REJECT_MSG], calls := [], nextCall := n,
        llm_disabled := false, event_stopped := false }
  | none =>
    { sessions := sessions, outbound := [STOP_REJECT_MSG], calls := [], nextCall := n,
      llm_disabled := false, event_stopped := false }

/-- `event.message_str.strip().upper()`: whitespace stripped from both
ends, characters uppercased, modelled over the character list. -/
def normalize_input (t : String) : String :=
  ⟨(((t.data.dropWhile Char.isWhitespace).reverse.dropWhile
      Char.isWhitespace).reverse).map Char.toUpper⟩

/-- `handle_game_input`: while a session is active, an A/B/C input disables
the default LLM reply and resolves the choice; any other text except the
command spellings only stops event propagation; with no active session the
message flows on untouched. -/
def handle_game_input (env : Env) (n : Nat) (sessions : List (String × Session))
    (id : String) (text : String) : RouterOut :=
  let noop : RouterOut :=
    { sessions := sessions, outbound := [], calls := [], nextCall := n,
      llm_disabled := false, event_stopped := false }
  match storeGet sessions id with
  | some s =>
    if s.game_active then
      let user_input := normalize_input text
      if user_input = "A" ∨ user_input = "B" ∨ user_input = "C" then
        let r := process_user_choice env n s user_input
        { sessions := storeSet sessions id r.session, outbound := r.outbound,
          calls := r.calls, nextCall := r.nextCall,
          llm_disabled := true, event_stopped := false }
      else if user_input ≠ "GAL启动" ∧ user_input ≠ "GAL关闭" then
        { sessions := sessions, outbound := [], calls := [], nextCall := n,
          llm_disabled := false, event_stopped := true }
      else noop
    else noop
  | none => noop

/-! ### Characterization lemmas for the engine operations -/

/-- When the conversation resolves and none of the three option calls
raises, `generate_options` emits the three (success-or-fallback) texts,
fills `last_options` with the three labels, records three calls on the
unchanged pre-option history and appends exactly the summary entry. -/
theorem generate_options_ok (env : Env) (n : Nat) (s : Session) (cv : Conversation)
    (a b c : Option String)
    (hconv : env.conv = some cv)
    (ha : env.provider n = .ok a)
    (hb : env.provider (n + 1) = .ok b)
    (hc : env.provider (n + 2) = .ok c) :
    generate_options env n s =
      { session :=
          { game_active := s.game_active,
            llm_context := s.llm_context ++
              [⟨"assistant", "提供的选项：\n" ++ a.getD FALLBACK_A ++ "\n" ++
                b.getD FALLBACK_B ++ "\n" ++ c.getD FALLBACK_C⟩],
            last_options :=
              [("A", a.getD FALLBACK_A), ("B", b.getD FALLBACK_B),
               ("C", c.getD FALLBACK_C)] },
        outbound := [a.getD FALLBACK_A, b.getD FALLBACK_B, c.getD FALLBACK_C],
        calls :=
          [⟨env.tmpl.option_a_prompt, FIXED_OPTION_SYSTEM, s.llm_context⟩,
           ⟨env.tmpl.option_b_prompt, FIXED_OPTION_SYSTEM, s.llm_context⟩,
           ⟨env.tmpl.option_c_prompt, FIXED_OPTION_SYSTEM, s.llm_context⟩],
        nextCall := n + 3 } := by
  unfold generate_options
  rw [hconv, ha, hb, hc]
  rfl

/-- When the first option call raises, `generate_options` stops after its
single error notice with `last_options` reset to empty. -/
theorem generate_options_exc_first (env : Env) (n : Nat) (s : Session)
    (cv : Conversation) (e : String)
    (hconv : env.conv = some cv)
    (ha : env.provider n = .exc e) :
    generate_options env n s =
      { session := { s with last_options := [] },
        outbound := ["生成选项时出错: " ++ e],
        calls := [⟨env.tmpl.option_a_prompt, FIXED_OPTION_SYSTEM, s.llm_context⟩],
        nextCall := n + 1 } := by
  unfold generate_options
  rw [hconv, ha]

/-- When the scene call raises, `_generate_initial_scene` emits the single
error notice, leaves the session untouched and makes no option call. -/
theorem generate_initial_scene_exc (env : Env) (n : Nat) (s : Session)
    (cv : Conversation) (e : String)
    (hconv : env.conv = some cv)
    (h : env.provider n = .exc e) :
    generate_initial_scene env n s =
      { session := s,
        outbound := ["生成场景时出错: " ++ e],
        calls := [⟨env.tmpl.scene_prompt,
          get_system_prompt env.persona cv.persona_id
            "你是一个视觉小说游戏引擎，能生成优质的Galgame剧情和选项", s.llm_context⟩],
        nextCall := n + 1 } := by
  unfold generate_initial_scene
  rw [hconv, h]

/-- When the continuation call raises, `_generate_story_progression` emits
the single error notice and leaves the session untouched. -/
theorem generate_story_progression_exc (env : Env) (n : Nat) (s : Session)
    (t : String) (cv : Conversation) (e : String)
    (hconv : env.conv = some cv)
    (h : env.provider n = .exc e) :
    generate_story_progression env n s t =
      { session := s,
        outbound := ["生成故事进展时出错: " ++ e],
        calls := [⟨env.tmpl.response_prompt ++ "\n玩家选择: " ++ t,
          get_system_prompt env.persona cv.persona_id
            "你是一个视觉小说游戏引擎，能根据用户选择生成优质的Galgame剧情", s.llm_context⟩],
        nextCall := n + 1 } := by
  unfold generate_story_progression
  rw [hconv, h]

/-- A valid choice whose continuation call raises: the user-choice entry is
appended, the error notice is the only further output, `last_options` and
`game_active` are untouched and no option call happens. -/
theorem process_user_choice_story_exc (env : Env) (n : Nat) (s : Session)
    (choice t : String) (cv : Conversation) (e : String)
    (hget : dictGet s.last_options choice = some t)
    (hne : t ≠ "")
    (hconv : env.conv = some cv)
    (h : env.provider n = .exc e) :
    process_user_choice env n s choice =
      { session :=
          { game_active := s.game_active,
            llm_context := s.llm_context ++ [⟨"user", "用户选择了：" ++ t⟩],
            last_options := s.last_options },
        outbound := ["生成故事进展时出错: " ++ e],
        calls := [⟨env.tmpl.response_prompt ++ "\n玩家选择: " ++ t,
          get_system_prompt env.persona cv.persona_id
            "你是一个视觉小说游戏引擎，能根据用户选择生成优质的Galgame剧情",
          s.llm_context ++ [⟨"user", "用户选择了：" ++ t⟩]⟩],
        nextCall := n + 1 } := by
  unfold process_user_choice
  rw [hget]
  dsimp only
  rw [if_neg hne]
  rw [generate_story_progression_exc env n _ t cv e hconv h]

/-- A valid choice followed by a fully successful turn: the user-choice
entry, the continuation and the options summary are appended in that
order, `last_options` is overwritten with the three fresh labels and the
outbound items are the story followed by the three options. -/
theorem process_user_choice_ok (env : Env) (n : Nat) (s : Session)
    (choice t : String) (cv : Conversation) (st a b c : Option String)
    (hget : dictGet s.last_options choice = some t)
    (hne : t ≠ "")
    (hconv : env.conv = some cv)
    (h0 : env.provider n = .ok st)
    (h1 : env.provider (n + 1) = .ok a)
    (h2 : env.provider (n + 2) = .ok b)
    (h3 : env.provider (n + 3) = .ok c) :
    process_user_choice env n s choice =
      { session :=
          { game_active := s.game_active,
            llm_context := s.llm_context ++
              [⟨"user", "用户选择了：" ++ t⟩,
               ⟨"assistant", st.getD "故事继续..."⟩,
               ⟨"assistant", "提供的选项：\n" ++ a.getD FALLBACK_A ++ "\n" ++
                 b.getD FALLBACK_B ++ "\n" ++ c.getD FALLBACK_C⟩],
            last_options :=
              [("A", a.getD FALLBACK_A), ("B", b.getD FALLBACK_B),
               ("C", c.getD FALLBACK_C)] },
        outbound := [st.getD "故事继续...", a.getD FALLBACK_A, b.getD FALLBACK_B,
          c.getD FALLBACK_C],
        calls :=
          [⟨env.tmpl.response_prompt ++ "\n玩家选择: " ++ t,
            get_system_prompt env.persona cv.persona_id
              "你是一个视觉小说游戏引擎，能根据用户选择生成优质的Galgame剧情",
            s.llm_context ++ [⟨"user", "用户选择了：" ++ t⟩]⟩,
           ⟨env.tmpl.option_a_prompt, FIXED_OPTION_SYSTEM,
            s.llm_context ++ [⟨"user", "用户选择了：" ++ t⟩,
              ⟨"assistant", st.getD "故事继续..."⟩]⟩,
           ⟨env.tmpl.option_b_prompt, FIXED_OPTION_SYSTEM,
            s.llm_context ++ [⟨"user", "用户选择了：" ++ t⟩,
              ⟨"assistant", st.getD "故事继续..."⟩]⟩,
           ⟨env.tmpl.option_c_prompt, FIXED_OPTION_SYSTEM,
            s.llm_context ++ [⟨"user", "用户选择了：" ++ t⟩,
              ⟨"assistant", st.getD "故事继续..."⟩]⟩],
        nextCall := n + 4 } := by
  unfold process_user_choice
  rw [hget]
  dsimp only
  rw [if_neg hne]
  unfold generate_story_progression
  rw [hconv, h0]
  dsimp only
  rw [generate_options_ok env (n + 1) _ cv a b c hconv h1 h2 h3]
  simp [List.append_assoc]

/-! ### Session-store lemmas and concrete fixtures -/

/-- After replacing the value of a present key, `find?` returns it. -/
theorem find?_map_set (st : List (String × Session)) (id : String) (s : Session) :
    (st.map (fun p => if p.1 = id then (id, s) else p)).find? (fun p => p.1 = id) =
      if st.any (fun p => p.1 = id) then some (id, s) else none := by
  induction st with
  | nil => rfl
  | cons hd tl ih =>
    by_cases hhd : hd.1 = id
    · simp [hhd]
    · have hd2 : (decide (hd.1 = id)) = false := by simp [hhd]
      simp [hhd, ih]
      rw [hd2, Bool.false_or]

/-- Appending a new binding for an absent key makes `find?` return it. -/
theorem find?_append_self (st : List (String × Session)) (id : String) (s : Session)
    (h : st.any (fun p => p.1 = id) = false) :
    (st ++ [(id, s)]).find? (fun p => p.1 = id) = some (id, s) := by
  induction st with
  | nil => simp
  | cons hd tl ih =>
    simp only [List.any_cons, Bool.or_eq_false_iff] at h
    have hhd : ¬hd.1 = id := by simpa using h.1
    simp [hhd, ih h.2]

/-- Reading a key back right after writing it. -/
theorem storeGet_set_self (st : List (String × Session)) (id : String) (s : Session) :
    storeGet (storeSet st id s) id = some s := by
  unfold storeGet storeSet
  by_cases h : st.any (fun p => p.1 = id) = true
  · rw [if_pos h, find?_map_set, if_pos h]
    rfl
  · have h2 : st.any (fun p => p.1 = id) = false := by
      cases hb : st.any (fun p => p.1 = id)
      · rfl
      · exact absurd hb h
    rw [if_neg h, find?_append_self st id s h2]
    rfl

/-- Opaque template texts for concrete runs. -/
def tmplTest : Templates :=
  { scene_prompt := "scene-template", option_a_prompt := "optionA-template",
    option_b_prompt := "optionB-template", option_c_prompt := "optionC-template",
    response_prompt := "response-template" }

/-- Persona environment with no personas configured. -/
def personaTest : PersonaEnv :=
  { lookupRaises := false, selected_default_persona := none, personas := [] }

/-- A conversation with no bound persona. -/
def convTest : Conversation := { persona_id := none }

/-- Environment whose provider always succeeds with distinct texts. -/
def envAllOk : Env :=
  { tmpl := tmplTest, persona := personaTest, conv := some convTest,
    provider := fun k => .ok (some ("text" ++ toString k)) }

/-- Environment whose provider returns responses lacking `completion_text`. -/
def envNoText : Env :=
  { tmpl := tmplTest, persona := personaTest, conv := some convTest,
    provider := fun _ => .ok none }

/-- Environment whose provider raises on every call. -/
def envAllExc : Env :=
  { tmpl := tmplTest, persona := personaTest, conv := some convTest,
    provider := fun _ => .exc "boom" }

/-- A freshly started session. -/
def sessionStart : Session :=
  { game_active := true, llm_context := [], last_options := [] }

/-- A mid-game session with an option set on offer. -/
def sessionMid : Session :=
  { game_active := true,
    llm_context := [⟨"system", "scene-template"⟩, ⟨"assistant", "opening"⟩],
    last_options := [("A", "A - x"), ("B", "B - y"), ("C", "C - z")] }

/-- A store holding the mid-game session. -/
def storeMid : List (String × Session) := [("sess", sessionMid)]

/-! ### Claim theorems -/

/-- Claim C1, counterexample: the claim says that even if all three option
provider calls fail, `GenerateOptions` still emits exactly three labeled
items and `lastOptions` holds all three labels.  With a provider that
raises on every call (the `ProviderError` failure mode), the run emits a
single error notice and leaves `last_options` empty. -/
theorem generate_options_exception_breaks_three_option_contract :
    (generate_options envAllExc 0 sessionMid).outbound = ["生成选项时出错: boom"] ∧
    (generate_options envAllExc 0 sessionMid).outbound.length ≠ 3 ∧
    (generate_options envAllExc 0 sessionMid).session.last_options = [] := by
  refine ⟨rfl, ?_, rfl⟩
  decide

/-- Claim C1, amended: the per-label fallback only masks a provider
response that lacks `completion_text`.  When no option call raises (each
returns a response, with or without completion text), exactly three
labeled items are emitted — a missing completion replaced by that label's
built-in fallback — and `lastOptions` afterwards holds entries for all
three labels A, B and C.  A call that raises instead aborts the whole
option generation with a single error notice. -/
theorem generate_options_amended_three_option_contract (env : Env) (n : Nat)
    (s : Session) (cv : Conversation) (a b c : Option String)
    (hconv : env.conv = some cv)
    (ha : env.provider n = .ok a)
    (hb : env.provider (n + 1) = .ok b)
    (hc : env.provider (n + 2) = .ok c) :
    (generate_options env n s).outbound =
      [a.getD FALLBACK_A, b.getD FALLBACK_B, c.getD FALLBACK_C] ∧
    (generate_options env n s).session.last_options =
      [("A", a.getD FALLBACK_A), ("B", b.getD FALLBACK_B), ("C", c.getD FALLBACK_C)] := by
  rw [generate_options_ok env n s cv a b c hconv ha hb hc]
  exact ⟨rfl, rfl⟩

/-- Witness for the amended C1 theorem: with every response lacking
`completion_text`, the three fallback texts are emitted and stored. -/
theorem generate_options_amended_three_option_contract_witness :
    envNoText.conv = some convTest ∧
    envNoText.provider 0 = .ok none ∧
    envNoText.provider 1 = .ok none ∧
    envNoText.provider 2 = .ok none ∧
    ((generate_options envNoText 0 sessionStart).outbound =
      [FALLBACK_A, FALLBACK_B, FALLBACK_C] ∧
     (generate_options envNoText 0 sessionStart).session.last_options =
      [("A", FALLBACK_A), ("B", FALLBACK_B), ("C", FALLBACK_C)]) :=
  ⟨rfl, rfl, rfl, rfl,
    generate_options_amended_three_option_contract envNoText 0 sessionStart convTest
      none none none rfl rfl rfl rfl⟩

/-- Claim C2: when the opening-scene provider call fails,
`GenerateOpeningScene` emits exactly one failure notice carrying the error
detail, makes no option call (one provider call in total), and leaves the
session — its `active` flag and its (still empty) history — untouched. -/
theorem initial_scene_failure_single_notice (env : Env) (n : Nat) (s : Session)
    (cv : Conversation) (e : String)
    (hconv : env.conv = some cv)
    (h : env.provider n = .exc e) :
    (generate_initial_scene env n s).outbound = ["生成场景时出错: " ++ e] ∧
    (generate_initial_scene env n s).session = s ∧
    (generate_initial_scene env n s).calls.length = 1 := by
  rw [generate_initial_scene_exc env n s cv e hconv h]
  exact ⟨rfl, rfl, rfl⟩

/-- Witness for C2: a concrete failing opening scene. -/
theorem initial_scene_failure_single_notice_witness :
    envAllExc.conv = some convTest ∧
    envAllExc.provider 0 = .exc "boom" ∧
    ((generate_initial_scene envAllExc 0 sessionStart).outbound =
      ["生成场景时出错: boom"] ∧
     (generate_initial_scene envAllExc 0 sessionStart).session = sessionStart ∧
     (generate_initial_scene envAllExc 0 sessionStart).calls.length = 1) :=
  ⟨rfl, rfl,
    initial_scene_failure_single_notice envAllExc 0 sessionStart convTest "boom" rfl rfl⟩

/-- Claim C3: when the continuation provider call fails after a valid
choice, exactly one failure notice is emitted, no option call is made (one
provider call in total), and `last_options` — and the `active` flag — are
unchanged from before the choice. -/
theorem continue_story_failure_notice_options_unchanged (env : Env) (n : Nat)
    (s : Session) (choice t : String) (cv : Conversation) (e : String)
    (hget : dictGet s.last_options choice = some t)
    (hne : t ≠ "")
    (hconv : env.conv = some cv)
    (h : env.provider n = .exc e) :
    (process_user_choice env n s choice).outbound = ["生成故事进展时出错: " ++ e] ∧
    (process_user_choice env n s choice).session.last_options = s.last_options ∧
    (process_user_choice env n s choice).session.game_active = s.game_active ∧
    (process_user_choice env n s choice).calls.length = 1 := by
  rw [process_user_choice_story_exc env n s choice t cv e hget hne hconv h]
  exact ⟨rfl, rfl, rfl, rfl⟩

/-- Witness for C3: choosing A out of a concrete option set with a raising
provider. -/
theorem continue_story_failure_notice_options_unchanged_witness :
    dictGet sessionMid.last_options "A" = some "A - x" ∧
    "A - x" ≠ "" ∧
    envAllExc.conv = some convTest ∧
    envAllExc.provider 0 = .exc "boom" ∧
    ((process_user_choice envAllExc 0 sessionMid "A").outbound =
      ["生成故事进展时出错: boom"] ∧
     (process_user_choice envAllExc 0 sessionMid "A").session.last_options =
      sessionMid.last_options ∧
     (process_user_choice envAllExc 0 sessionMid "A").session.game_active =
      sessionMid.game_active ∧
     (process_user_choice envAllExc 0 sessionMid "A").calls.length = 1) :=
  ⟨rfl, by decide, rfl, rfl,
    continue_story_failure_notice_options_unchanged envAllExc 0 sessionMid "A" "A - x"
      convTest "boom" rfl (by decide) rfl rfl⟩

/-- Claim C4: for a choice label present in `lastOptions` (and non-falsy),
a successful `ResolveChoice` followed by a successful `ContinueStory`
appends exactly one user entry and exactly one assistant continuation
entry to history, after which option regeneration appends its single
summary entry, emits three fresh options and overwrites `lastOptions`
with exactly the three labels. -/
theorem choice_then_continue_appends_and_regenerates (env : Env) (n : Nat)
    (s : Session) (choice t : String) (cv : Conversation) (st a b c : Option String)
    (hlabel : choice = "A" ∨ choice = "B" ∨ choice = "C")
    (hget : dictGet s.last_options choice = some t)
    (hne : t ≠ "")
    (hconv : env.conv = some cv)
    (h0 : env.provider n = .ok st)
    (h1 : env.provider (n + 1) = .ok a)
    (h2 : env.provider (n + 2) = .ok b)
    (h3 : env.provider (n + 3) = .ok c) :
    (process_user_choice env n s choice).session.llm_context =
      s.llm_context ++
        [⟨"user", "用户选择了：" ++ t⟩,
         ⟨"assistant", st.getD "故事继续..."⟩,
         ⟨"assistant", "提供的选项：\n" ++ a.getD FALLBACK_A ++ "\n" ++
           b.getD FALLBACK_B ++ "\n" ++ c.getD FALLBACK_C⟩] ∧
    (process_user_choice env n s choice).session.last_options =
      [("A", a.getD FALLBACK_A), ("B", b.getD FALLBACK_B), ("C", c.getD FALLBACK_C)] ∧
    (process_user_choice env n s choice).outbound =
      [st.getD "故事继续...", a.getD FALLBACK_A, b.getD FALLBACK_B, c.getD FALLBACK_C] := by
  rw [process_user_choice_ok env n s choice t cv st a b c hget hne hconv h0 h1 h2 h3]
  exact ⟨rfl, rfl, rfl⟩

/-- Witness for C4: choosing A in a concrete mid-game session with an
always-succeeding provider. -/
theorem choice_then_continue_appends_and_regenerates_witness :
    ("A" = "A" ∨ "A" = "B" ∨ "A" = "C") ∧
    dictGet sessionMid.last_options "A" = some "A - x" ∧
    "A - x" ≠ "" ∧
    envAllOk.conv = some convTest ∧
    envAllOk.provider 0 = .ok (some "text0") ∧
    envAllOk.provider 1 = .ok (some "text1") ∧
    envAllOk.provider 2 = .ok (some "text2") ∧
    envAllOk.provider 3 = .ok (some "text3") ∧
    ((process_user_choice envAllOk 0 sessionMid "A").session.llm_context =
      sessionMid.llm_context ++
        [⟨"user", "用户选择了：A - x"⟩, ⟨"assistant", "text0"⟩,
         ⟨"assistant", "提供的选项：\ntext1\ntext2\ntext3"⟩] ∧
     (process_user_choice envAllOk 0 sessionMid "A").session.last_options =
      [("A", "text1"), ("B", "text2"), ("C", "text3")] ∧
     (process_user_choice envAllOk 0 sessionMid "A").outbound =
      ["text0", "text1", "text2", "text3"]) :=
  ⟨Or.inl rfl, rfl, by decide, rfl, rfl, rfl, rfl, rfl,
    choice_then_continue_appends_and_regenerates envAllOk 0 sessionMid "A" "A - x"
      convTest (some "text0") (some "text1") (some "text2") (some "text3")
      (Or.inl rfl) rfl (by decide) rfl rfl rfl rfl rfl⟩

/-- Claim C5: when no option call raises, `GenerateOptions` makes the
three provider calls A, B, C in that order, each with the identical
pre-option history snapshot (no history entry is appended between the
calls), and exactly one synthetic assistant summary entry of the form
`提供的选项：\n<A>\n<B>\n<C>` is appended, only after all three calls. -/
theorem options_calls_share_history_single_summary (env : Env) (n : Nat)
    (s : Session) (cv : Conversation) (a b c : Option String)
    (hconv : env.conv = some cv)
    (ha : env.provider n = .ok a)
    (hb : env.provider (n + 1) = .ok b)
    (hc : env.provider (n + 2) = .ok c) :
    (generate_options env n s).calls =
      [⟨env.tmpl.option_a_prompt, FIXED_OPTION_SYSTEM, s.llm_context⟩,
       ⟨env.tmpl.option_b_prompt, FIXED_OPTION_SYSTEM, s.llm_context⟩,
       ⟨env.tmpl.option_c_prompt, FIXED_OPTION_SYSTEM, s.llm_context⟩] ∧
    (generate_options env n s).session.llm_context =
      s.llm_context ++
        [⟨"assistant", "提供的选项：\n" ++ a.getD FALLBACK_A ++ "\n" ++
          b.getD FALLBACK_B ++ "\n" ++ c.getD FALLBACK_C⟩] := by
  rw [generate_options_ok env n s cv a b c hconv ha hb hc]
  exact ⟨rfl, rfl⟩

/-- Witness for C5: a concrete option round in a mid-game session. -/
theorem options_calls_share_history_single_summary_witness :
    envAllOk.conv = some convTest ∧
    envAllOk.provider 0 = .ok (some "text0") ∧
    envAllOk.provider 1 = .ok (some "text1") ∧
    envAllOk.provider 2 = .ok (some "text2") ∧
    ((generate_options envAllOk 0 sessionMid).calls =
      [⟨tmplTest.option_a_prompt, FIXED_OPTION_SYSTEM, sessionMid.llm_context⟩,
       ⟨tmplTest.option_b_prompt, FIXED_OPTION_SYSTEM, sessionMid.llm_context⟩,
       ⟨tmplTest.option_c_prompt, FIXED_OPTION_SYSTEM, sessionMid.llm_context⟩] ∧
     (generate_options envAllOk 0 sessionMid).session.llm_context =
      sessionMid.llm_context ++ [⟨"assistant", "提供的选项：\ntext0\ntext1\ntext2"⟩]) :=
  ⟨rfl, rfl, rfl, rfl,
    options_calls_share_history_single_summary envAllOk 0 sessionMid convTest
      (some "text0") (some "text1") (some "text2") rfl rfl rfl rfl⟩

/-- Claim C9: a `ResolveChoice` on a label with no entry in `lastOptions`
emits exactly one error notice, makes no provider call and performs no
mutation of the session state at all. -/
theorem invalid_choice_notice_no_mutation (env : Env) (n : Nat) (s : Session)
    (choice : String)
    (hget : dictGet s.last_options choice = none) :
    process_user_choice env n s choice =
      { session := s, outbound := ["无法识别您的选择，请重新选择A、B或C"], calls := [],
        nextCall := n } := by
  unfold process_user_choice
  rw [hget]

/-- Witness for C9: label D is not in the concrete option set. -/
theorem invalid_choice_notice_no_mutation_witness :
    dictGet sessionMid.last_options "D" = none ∧
    process_user_choice envAllOk 0 sessionMid "D" =
      { session := sessionMid, outbound := ["无法识别您的选择，请重新选择A、B或C"],
        calls := [], nextCall := 0 } :=
  ⟨rfl, invalid_choice_notice_no_mutation envAllOk 0 sessionMid "D" rfl⟩

/-- Claim C10: when the continuation call fails after a valid choice, the
`{user, 用户选择了：...}` entry appended by `ResolveChoice` stays in
history — the aborted turn is not rolled back — so the history afterwards
ends with that user-choice entry and no assistant entry follows it. -/
theorem failed_turn_keeps_user_choice_entry (env : Env) (n : Nat) (s : Session)
    (choice t : String) (cv : Conversation) (e : String)
    (hget : dictGet s.last_options choice = some t)
    (hne : t ≠ "")
    (hconv : env.conv = some cv)
    (h : env.provider n = .exc e) :
    (process_user_choice env n s choice).session.llm_context =
      s.llm_context ++ [⟨"user", "用户选择了：" ++ t⟩] ∧
    (process_user_choice env n s choice).session.llm_context.getLast? =
      some ⟨"user", "用户选择了：" ++ t⟩ := by
  rw [process_user_choice_story_exc env n s choice t cv e hget hne hconv h]
  refine ⟨rfl, ?_⟩
  simp

/-- Witness for C10: a concrete failed turn after choosing B. -/
theorem failed_turn_keeps_user_choice_entry_witness :
    dictGet sessionMid.last_options "B" = some "B - y" ∧
    "B - y" ≠ "" ∧
    envAllExc.conv = some convTest ∧
    envAllExc.provider 0 = .exc "boom" ∧
    ((process_user_choice envAllExc 0 sessionMid "B").session.llm_context =
      sessionMid.llm_context ++ [⟨"user", "用户选择了：B - y"⟩] ∧
     (process_user_choice envAllExc 0 sessionMid "B").session.llm_context.getLast? =
      some ⟨"user", "用户选择了：B - y"⟩) :=
  ⟨rfl, by decide, rfl, rfl,
    failed_turn_keeps_user_choice_entry envAllExc 0 sessionMid "B" "B - y" convTest
      "boom" rfl (by decide) rfl rfl⟩

/-- Claim C6: stopping an active session sets `active` to false, empties
the history and emits the confirmation; stopping an inactive or absent
session emits exactly one nothing-running notice and mutates nothing; and
a start issued after such a stop behaves exactly like a first-ever start
on an absent identifier (same outbound items, same resulting session). -/
theorem stop_start_lifecycle :
    (∀ (n : Nat) (sessions : List (String × Session)) (id : String) (s : Session),
      storeGet sessions id = some s → s.game_active = true →
        (handle_stop_galgame n sessions id).outbound = ["gal已关闭"] ∧
        storeGet (handle_stop_galgame n sessions id).sessions id =
          some { s with game_active := false, llm_context := [] }) ∧
    (∀ (n : Nat) (sessions : List (String × Session)) (id : String),
      (storeGet sessions id = none ∨
        ∃ s, storeGet sessions id = some s ∧ s.game_active = false) →
        handle_stop_galgame n sessions id =
          { sessions := sessions, outbound := [STOP_REJECT_MSG], calls := [],
            nextCall := n, llm_disabled := false, event_stopped := false }) ∧
    (∀ (env : Env) (n m : Nat) (sessions : List (String × Session)) (id : String)
        (s : Session),
      storeGet sessions id = some s → s.game_active = true →
        (handle_start_galgame env n (handle_stop_galgame m sessions id).sessions
            id).outbound =
          (handle_start_galgame env n [] id).outbound ∧
        storeGet (handle_start_galgame env n
            (handle_stop_galgame m sessions id).sessions id).sessions id =
          storeGet (handle_start_galgame env n [] id).sessions id) := by
  refine ⟨?_, ?_, ?_⟩
  · intro n sessions id s hg hact
    unfold handle_stop_galgame
    rw [hg]
    dsimp only
    rw [if_pos hact]
    exact ⟨rfl, storeGet_set_self sessions id _⟩
  · intro n sessions id h
    rcases h with hnone | ⟨s, hs, hinact⟩
    · unfold handle_stop_galgame
      rw [hnone]
    · unfold handle_stop_galgame
      rw [hs]
      dsimp only
      rw [if_neg (by simp [hinact])]
  · intro env n m sessions id s hg hact
    have hstop : storeGet (handle_stop_galgame m sessions id).sessions id =
        some { s with game_active := false, llm_context := [] } := by
      unfold handle_stop_galgame
      rw [hg]
      dsimp only
      rw [if_pos hact]
      exact storeGet_set_self sessions id _
    have hnil : storeGet ([] : List (String × Session)) id = none := rfl
    constructor
    · unfold handle_start_galgame
      dsimp only
      rw [hstop, hnil]
      dsimp only
      rw [if_neg Bool.false_ne_true]
    · unfold handle_start_galgame
      dsimp only
      rw [hstop, hnil]
      dsimp only
      rw [if_neg Bool.false_ne_true]
      dsimp only
      rw [storeGet_set_self, storeGet_set_self]

/-- Witness for C6: the three lifecycle facts at a concrete store holding
one active session. -/
theorem stop_start_lifecycle_witness :
    ((handle_stop_galgame 0 storeMid "sess").outbound = ["gal已关闭"] ∧
     storeGet (handle_stop_galgame 0 storeMid "sess").sessions "sess" =
       some { sessionMid with game_active := false, llm_context := [] }) ∧
    (handle_stop_galgame 0 [] "sess" =
      { sessions := [], outbound := [STOP_REJECT_MSG], calls := [], nextCall := 0,
        llm_disabled := false, event_stopped := false }) ∧
    ((handle_start_galgame envAllOk 0 (handle_stop_galgame 0 storeMid "sess").sessions
        "sess").outbound =
      (handle_start_galgame envAllOk 0 [] "sess").outbound ∧
     storeGet (handle_start_galgame envAllOk 0
        (handle_stop_galgame 0 storeMid "sess").sessions "sess").sessions "sess" =
      storeGet (handle_start_galgame envAllOk 0 [] "sess").sessions "sess") :=
  ⟨stop_start_lifecycle.1 0 storeMid "sess" sessionMid rfl rfl,
   stop_start_lifecycle.2.1 0 [] "sess" (Or.inl rfl),
   stop_start_lifecycle.2.2 envAllOk 0 0 storeMid "sess" sessionMid rfl rfl⟩

/-- Claim C7: while a session is active, an inbound message whose trimmed
and uppercased text is neither a choice label A/B/C nor one of the two
command spellings produces zero outbound items, stops event propagation,
makes no provider call and leaves the whole session store — hence
`lastOptions`, history and `active` — unchanged. -/
theorem non_choice_input_suppressed_no_mutation (env : Env) (n : Nat)
    (sessions : List (String × Session)) (id text : String) (s : Session)
    (hg : storeGet sessions id = some s)
    (hact : s.game_active = true)
    (hnc : ¬(normalize_input text = "A" ∨ normalize_input text = "B" ∨
      normalize_input text = "C"))
    (hcmd : normalize_input text ≠ "GAL启动" ∧ normalize_input text ≠ "GAL关闭") :
    handle_game_input env n sessions id text =
      { sessions := sessions, outbound := [], calls := [], nextCall := n,
        llm_disabled := false, event_stopped := true } := by
  unfold handle_game_input
  dsimp only
  rw [hg]
  dsimp only
  rw [if_pos hact, if_neg hnc, if_pos hcmd]

/-- Witness for C7: sending the text D while the concrete mid-game session
is active. -/
theorem non_choice_input_suppressed_no_mutation_witness :
    storeGet storeMid "sess" = some sessionMid ∧
    sessionMid.game_active = true ∧
    ¬(normalize_input "D" = "A" ∨ normalize_input "D" = "B" ∨
      normalize_input "D" = "C") ∧
    (normalize_input "D" ≠ "GAL启动" ∧ normalize_input "D" ≠ "GAL关闭") ∧
    handle_game_input envAllOk 0 storeMid "sess" "D" =
      { sessions := storeMid, outbound := [], calls := [], nextCall := 0,
        llm_disabled := false, event_stopped := true } :=
  ⟨rfl, rfl, by decide, by decide,
    non_choice_input_suppressed_no_mutation envAllOk 0 storeMid "sess" "D" sessionMid
      rfl rfl (by decide) (by decide)⟩

/-- Claim C8: a start command while the session is already active produces
exactly one already-running notice and leaves the store — hence that
session's history and `lastOptions` — untouched, with no provider call. -/
theorem start_already_active_single_notice (env : Env) (n : Nat)
    (sessions : List (String × Session)) (id : String) (s : Session)
    (hg : storeGet sessions id = some s)
    (hact : s.game_active = true) :
    handle_start_galgame env n sessions id =
      { sessions := sessions, outbound := [START_REJECT_MSG], calls := [], nextCall := n,
        llm_disabled := false, event_stopped := false } := by
  unfold handle_start_galgame
  dsimp only
  rw [hg]
  dsimp only
  rw [if_pos hact]

/-- Witness for C8: starting on the concrete store whose session is
active. -/
theorem start_already_active_single_notice_witness :
    storeGet storeMid "sess" = some sessionMid ∧
    sessionMid.game_active = true ∧
    handle_start_galgame envAllOk 0 storeMid "sess" =
      { sessions := storeMid, outbound := [START_REJECT_MSG], calls := [], nextCall := 0,
        llm_disabled := false, event_stopped := false } :=
  ⟨rfl, rfl, start_already_active_single_notice envAllOk 0 storeMid "sess" sessionMid rfl rfl⟩

end GalGame
